import Mathlib

/-!
Verification of the Jura-Front conversation driver.

The core under `src/src/chat/hooks/useConversationDriver.ts` is a pure,
client-side step-walkthrough conversation driver: a finite-state machine
over conversation steps, a canned assistant-response generator keyed to the
destination step, and two entry points (`handleUserInput`, `sendMessage`)
that append turns to the conversation state.

The shallow embedding below translates that TypeScript directly:
- TypeScript string-union `ConversationStep` becomes an inductive type;
- optional (possibly `undefined`) values become `Option`;
- JavaScript truthiness of optional strings (`undefined` and `""` are
  falsy) is made explicit in `truthy`;
- `Date.now()` / `new Date()` become an explicit `now : Nat` parameter;
- the `React.setState` updater inside `handleUserInput` is embedded as the
  pure state-transformer it applies to the previous state;
- to settle frame claims about backend usage, every driver entry point
  also returns the list of Backend API operations it issues (the source
  contains no call sites of the Backend API, so that list is built
  exclusively from the translation of the source's statements);
- the agent/thread resolver subsystem described by the spec is not among
  the source files; for the claims about it, it is modelled from the spec
  (each such definition is marked `Modelled from the spec:`).
-/

namespace Jura

/-- The steps of the walkthrough, from the `ConversationStep` string union
(the driver handles exactly these literals). -/
inductive ConversationStep where
  | welcome
  | cvUploadOrManual
  | basicInfo
  | roleEntry
  | roleDetails
  | review
  | complete
deriving DecidableEq, Repr

/-- Role of a conversation turn (`'user' | 'assistant'`). -/
inductive TurnRole where
  | user
  | assistant
deriving DecidableEq, Repr

/-- Modelled from the spec: the profile basics record consulted by the
driver; the fields prompted for are `name`, `headline`, `email`,
`location` (the `types` module itself is not among the source files).
Optional strings model possibly-`undefined` TypeScript fields. -/
structure Basics where
  name : Option String
  headline : Option String
  email : Option String
  location : Option String
deriving DecidableEq, Repr

/-- Modelled from the spec: one experience entry ("role") of the profile;
the driver only ever consults the number of entries, never their fields. -/
structure RoleEntry where
  title : String
deriving DecidableEq, Repr

/-- Modelled from the spec: the profile record returned by
`useMyProfileQuery`; `completenessScore` (a JS number in `[0,1]`) is
modelled as an exact rational. -/
structure Profile where
  basics : Basics
  roles : List RoleEntry
  completenessScore : Rat
deriving DecidableEq, Repr

/-- Payload data of a turn block, one constructor per block `type`
appearing in the driver. -/
inductive BlockData where
  | text (content : String)
  | cvUploadPrompt (acceptedFormats : List String)
  | profileBasicsPrompt (fields : List String) (existingData : Basics)
  | rolePrompt (roleIndex : Nat)
deriving DecidableEq, Repr

/-- A block of an assistant turn: `{id, type, data}`. -/
structure TurnBlock where
  id : String
  type : String
  data : BlockData
deriving DecidableEq, Repr

/-- `ConversationTurn {id, role, content, blocks?, timestamp}`; `blocks`
is optional (user turns are built without it). -/
structure ConversationTurn where
  id : String
  role : TurnRole
  content : String
  blocks : Option (List TurnBlock)
  timestamp : Nat
deriving DecidableEq, Repr

/-- `ConversationState {turns, isLoading, currentStep}`. -/
structure ConversationState where
  turns : List ConversationTurn
  isLoading : Bool
  currentStep : ConversationStep
deriving DecidableEq, Repr

/-- `UserInputAction {type, payload}`; the driver reads `payload` as a
string only when `type === 'message'`. -/
structure UserInputAction where
  type : String
  payload : String
deriving DecidableEq, Repr

/-- The five Backend API operations of the spec's external interface. -/
inductive BackendOp where
  | listAgents
  | createAgent
  | createThread
  | getThreadHistory
  | sendMessage
deriving DecidableEq, Repr

/-- JavaScript truthiness of a possibly-`undefined` string: `undefined`
and `""` are falsy, every other string is truthy. -/
def truthy : Option String → Bool
  | none => false
  | some s => !s.isEmpty

/-- JavaScript `String.prototype.trim`, modelled over the character list:
drop whitespace from both ends. -/
def jsTrim (s : String) : String :=
  String.mk (((s.data.dropWhile Char.isWhitespace).reverse.dropWhile
    Char.isWhitespace).reverse)

/-- Direct translation of `getNextStep` (lines 48-71 of the driver).
The `basic-info` branch tests `!profile?.basics.name ||
!profile?.basics.headline`; the `role-details` branch tests
`!profile?.roles || profile.roles.length === 0` (an absent profile makes
the optional chain `undefined`, hence falsy, in both branches; a present
`roles` array is always truthy, so only its length matters). The final
`return 'complete'` is the fall-through reached by `complete`. -/
def getNextStep (profile : Option Profile) (currentStep : ConversationStep) :
    ConversationStep :=
  match currentStep with
  | .welcome => .cvUploadOrManual
  | .cvUploadOrManual => .basicInfo
  | .basicInfo =>
    match profile with
    | none => .basicInfo
    | some p =>
      if !truthy p.basics.name || !truthy p.basics.headline then .basicInfo
      else .roleEntry
  | .roleEntry => .roleDetails
  | .roleDetails =>
    match profile with
    | none => .roleEntry
    | some p =>
      if p.roles.length == 0 then .roleEntry
      else .review
  | .review => .complete
  | .complete => .complete

/-- The spec's external predicate "has required basic fields": the
profile's basics name and headline are both present. -/
def hasRequiredBasicFields (profile : Option Profile) : Bool :=
  truthy (profile.bind fun p => p.basics.name) &&
    truthy (profile.bind fun p => p.basics.headline)

/-- The spec's external predicate "has at least one experience entry":
the profile's roles list is non-empty. -/
def hasExperienceEntry (profile : Option Profile) : Bool :=
  match profile with
  | none => false
  | some p => !p.roles.isEmpty

/-- JavaScript `Math.round` on an exact rational: round half up. -/
def jsRound (x : Rat) : Int := (x + 1 / 2).floor

/-- Direct translation of `generateAssistantResponse` (lines 73-203).
`now` stands for `Date.now()`; the `default` switch branch (reached by
`welcome`) echoes the user message. -/
def generateAssistantResponse (profile : Option Profile) (now : Nat)
    (step : ConversationStep) (userMessage : Option String) :
    ConversationTurn :=
  let turnId := "turn-" ++ toString now
  match step with
  | .cvUploadOrManual =>
    { id := turnId
      role := .assistant
      content := "Great! How would you like to proceed?"
      blocks := some [
        { id := turnId ++ "-text"
          type := "text"
          data := .text ("You can either upload your CV and I\x27ll extract the information, or we can enter it manually together. What would you prefer?") }]
      timestamp := now }
  | .basicInfo =>
    { id := turnId
      role := .assistant
      content := "Let\x27s start with your basic information"
      blocks := some [
        { id := turnId ++ "-basics"
          type := "profile-basics-prompt"
          data := .profileBasicsPrompt
            ["name", "headline", "email", "location"]
            ((profile.map fun p => p.basics).getD
              { name := none, headline := none, email := none, location := none }) }]
      timestamp := now }
  | .roleEntry =>
    { id := turnId
      role := .assistant
      content := "Now, let\x27s add your professional experience"
      blocks := some [
        { id := turnId ++ "-text"
          type := "text"
          data := .text "Tell me about your most recent or current role. What was your job title and company?" }]
      timestamp := now }
  | .roleDetails =>
    { id := turnId
      role := .assistant
      content := "Tell me more about this role"
      blocks := some [
        { id := turnId ++ "-role"
          type := "role-prompt"
          data := .rolePrompt ((profile.map fun p => p.roles.length).getD 0) }]
      timestamp := now }
  | .review =>
    { id := turnId
      role := .assistant
      content := "Great progress!"
      blocks := some [
        { id := turnId ++ "-text"
          type := "text"
          data := .text ("Your profile is "
            ++ toString (jsRound (((profile.map fun p => p.completenessScore).getD 0) * 100))
            ++ "% complete. You can review it on the right panel. Would you like to add another role or refine what we have?") }]
      timestamp := now }
  | .complete =>
    { id := turnId
      role := .assistant
      content := "Your profile is ready!"
      blocks := some [
        { id := turnId ++ "-text"
          type := "text"
          data := .text "🎉 Your profile looks great! You can continue to refine it or start sharing it with recruiters." }]
      timestamp := now }
  | .welcome =>
    { id := turnId
      role := .assistant
      content := (userMessage.getD "I understand.")
      blocks := some [
        { id := turnId ++ "-text"
          type := "text"
          data := .text "How else can I help you with your profile?" }]
      timestamp := now }

/-- Direct translation of `handleUserInput` (lines 205-232), embedded as
the pure updater the source passes to `setState`, paired with the list of
Backend API operations it issues (the source issues none). -/
def handleUserInput (profile : Option Profile) (now : Nat)
    (action : UserInputAction) (prev : ConversationState) :
    ConversationState × List BackendOp :=
  let userTurn : ConversationTurn :=
    { id := "user-" ++ toString now
      role := .user
      content :=
        if action.type = "message" then action.payload
        else "[" ++ action.type ++ "]"
      blocks := none
      timestamp := now }
  let nextStep := getNextStep profile prev.currentStep
  let assistantTurn :=
    generateAssistantResponse profile now nextStep (some userTurn.content)
  ({ prev with
      turns := prev.turns ++ [userTurn, assistantTurn]
      currentStep := nextStep }, [])

/-- Direct translation of `sendMessage` (lines 234-244): a message blank
after trimming is ignored (`!message.trim()`), anything else is forwarded
to `handleUserInput` as a `message` action carrying the original string. -/
def sendMessage (profile : Option Profile) (now : Nat) (message : String)
    (prev : ConversationState) : ConversationState × List BackendOp :=
  if jsTrim message = "" then (prev, [])
  else handleUserInput profile now { type := "message", payload := message } prev

/-- The initial conversation state (lines 18-46): one welcome turn,
`isLoading := false`, `currentStep := welcome`. `now` stands for the
`new Date()` taken at initialization. -/
def initialState (now : Nat) : ConversationState :=
  { turns := [
      { id := "1"
        role := .assistant
        content := "Welcome to Jura! 👋"
        blocks := some [
          { id := "welcome-1"
            type := "text"
            data := .text "I\x27m your AI career agent. I\x27ll help you build a recruiter-ready profile that showcases your experience and achievements. Let\x27s get started!" },
          { id := "welcome-2"
            type := "cv-upload-prompt"
            data := .cvUploadPrompt [".pdf", ".doc", ".docx"] }]
        timestamp := now }]
    isLoading := false
    currentStep := .welcome }

/-- Modelled from the spec: a backend-held agent identity `{id, name,
type, ...}` (the resolver subsystem is not among the source files). -/
structure Agent where
  id : String
  name : String
  type : String
deriving DecidableEq, Repr

/-- Modelled from the spec: the fixed desired-state descriptor the agent
resolver matches against, by `(name, type)`. -/
structure AgentSpec where
  name : String
  type : String
deriving DecidableEq, Repr

/-- Modelled from the spec: the create-once guard held by each resolver,
transitioning `idle → creating → created|failed`; `created` caches the
resolved id. -/
inductive CreateGuard where
  | idle
  | creating
  | created (id : String)
  | failed
deriving DecidableEq, Repr

/-- Modelled from the spec: one invocation of the agent resolver logic.
Input is the possibly-not-yet-available agent list and the fixed spec;
the result is the new guard state paired with the number of `createAgent`
requests issued by this invocation. While the list is unavailable the
resolver reports unresolved and does nothing; a `(name, type)` match is
returned immediately; with no match, `idle` (or `failed`, which permits a
retry) starts exactly one creation and moves to `creating`, while
`creating` and `created` issue nothing. -/
def resolveAgentInvoke (agents : Option (List Agent)) (spec : AgentSpec)
    (g : CreateGuard) : CreateGuard × Nat :=
  match agents with
  | none => (g, 0)
  | some list =>
    match list.find? fun a => a.name == spec.name && a.type == spec.type with
    | some a => (.created a.id, 0)
    | none =>
      match g with
      | .idle => (.creating, 1)
      | .creating => (.creating, 0)
      | .created i => (.created i, 0)
      | .failed => (.creating, 1)

/-- Modelled from the spec: the persisted binding store, a key→value map
consulted with the key convention `"session-thread-" ++ agentId`. -/
def lookupBinding (store : List (String × String)) (agentId : String) :
    Option String :=
  store.lookup ("session-thread-" ++ agentId)

/-- Modelled from the spec: one invocation of the thread resolver logic.
Unresolved while the agent id is absent; a persisted binding is returned
immediately with no network call; otherwise the identical guarded
create-once algorithm as the agent resolver runs `createThread`, whose
issued-request count is the second component. -/
def resolveThreadInvoke (agentId : Option String)
    (store : List (String × String)) (g : CreateGuard) :
    CreateGuard × Nat :=
  match agentId with
  | none => (g, 0)
  | some aid =>
    match lookupBinding store aid with
    | some tid => (.created tid, 0)
    | none =>
      match g with
      | .idle => (.creating, 1)
      | .creating => (.creating, 0)
      | .created i => (.created i, 0)
      | .failed => (.creating, 1)

/-- Modelled from the spec: `n` repeated invocations of a resolver's
logic (the reactive model may re-run it on every re-render before the
pending creation completes); returns the final guard and the total number
of creation requests issued across the invocations. -/
def iterateResolver (invoke : CreateGuard → CreateGuard × Nat) :
    Nat → CreateGuard → CreateGuard × Nat
  | 0, g => (g, 0)
  | n + 1, g =>
    let r := invoke g
    let r' := iterateResolver invoke n r.1
    (r'.1, r.2 + r'.2)

/-- Every turn built by `generateAssistantResponse` carries the
`assistant` role, whatever the step. -/
theorem generateAssistantResponse_role (profile : Option Profile)
    (now : Nat) (step : ConversationStep) (um : Option String) :
    (generateAssistantResponse profile now step um).role = .assistant := by
  cases step <;> rfl

/-- A guard state fixed by one invocation (same state, zero requests) is
fixed by any number of repeated invocations. -/
theorem iterateResolver_fixed (invoke : CreateGuard → CreateGuard × Nat)
    (g : CreateGuard) (h : invoke g = (g, 0)) :
    ∀ n, iterateResolver invoke n g = (g, 0) := by
  intro n
  induction n with
  | zero => rfl
  | succ m ih => simp [iterateResolver, h, ih]

/-- Claim C1: a message that is blank after trimming makes `sendMessage`
a silent no-op — the state (turns, currentStep, isLoading) is returned
unchanged and no backend operation is issued. -/
theorem sendMessage_blank_is_noop (profile : Option Profile) (now : Nat)
    (message : String) (prev : ConversationState)
    (h : jsTrim message = "") :
    sendMessage profile now message prev = (prev, []) := by
  simp [sendMessage, h]

theorem sendMessage_blank_is_noop_witness :
    sendMessage none 5 "   " (initialState 0) = (initialState 0, []) :=
  sendMessage_blank_is_noop none 5 "   " (initialState 0) (by decide)

/-- Claim C2: `complete` is terminal — the transition function self-loops
on it for every profile, and a `handleUserInput` invocation on a state
whose current step is `complete` leaves the current step at `complete`. -/
theorem complete_is_terminal (profile : Option Profile) (now : Nat)
    (action : UserInputAction) (prev : ConversationState)
    (h : prev.currentStep = .complete) :
    getNextStep profile .complete = .complete ∧
      ((handleUserInput profile now action prev).1).currentStep =
        .complete := by
  refine ⟨rfl, ?_⟩
  simp [handleUserInput, h, getNextStep]

theorem complete_is_terminal_witness :
    getNextStep none .complete = .complete ∧
      ((handleUserInput none 3 { type := "message", payload := "x" }
        { turns := [], isLoading := false,
          currentStep := .complete }).1).currentStep = .complete :=
  complete_is_terminal none 3 { type := "message", payload := "x" }
    { turns := [], isLoading := false, currentStep := .complete } rfl

/-- Claim C3: from `basic-info` the machine advances to `role-entry`
exactly when the "has required basic fields" predicate (name and headline
both present) holds, and otherwise loops back to `basic-info`. -/
theorem basicInfo_advances_iff_basics (profile : Option Profile) :
    getNextStep profile .basicInfo =
      if hasRequiredBasicFields profile then .roleEntry else .basicInfo := by
  cases profile with
  | none => rfl
  | some p =>
    simp only [getNextStep, hasRequiredBasicFields, Option.some_bind]
    have key : ∀ a b : Bool,
        (if (!a || !b) = true then ConversationStep.basicInfo
          else ConversationStep.roleEntry) =
          if (a && b) = true then ConversationStep.roleEntry
          else ConversationStep.basicInfo := by
      decide
    exact key (truthy p.basics.name) (truthy p.basics.headline)

/-- Claim C4: from `role-details` the machine advances to `review`
exactly when the "has at least one experience entry" predicate (roles
list non-empty) holds, and otherwise loops back to `role-entry`. -/
theorem roleDetails_advances_iff_experience (profile : Option Profile) :
    getNextStep profile .roleDetails =
      if hasExperienceEntry profile then .review else .roleEntry := by
  cases profile with
  | none => rfl
  | some p =>
    simp only [getNextStep, hasExperienceEntry]
    have key : ∀ l : List RoleEntry,
        (if (l.length == 0) = true then ConversationStep.roleEntry
          else ConversationStep.review) =
          if (!l.isEmpty) = true then ConversationStep.review
          else ConversationStep.roleEntry := by
      intro l
      cases l <;> rfl
    exact key p.roles

/-- Claim C5: for every non-blank input, the assistant turn appended by
the walkthrough is the canned response generated for the destination
state of the transition. -/
theorem response_keyed_to_destination (profile : Option Profile)
    (now : Nat) (message : String) (prev : ConversationState)
    (h : jsTrim message ≠ "") :
    ∃ u : ConversationTurn, u.content = message ∧
      ((sendMessage profile now message prev).1).turns =
        prev.turns ++
          [u, generateAssistantResponse profile now
            (getNextStep profile prev.currentStep) (some u.content)] := by
  refine ⟨{ id := "user-" ++ toString now, role := .user,
            content := message, blocks := none, timestamp := now },
          rfl, ?_⟩
  simp [sendMessage, h, handleUserInput]

theorem response_keyed_to_destination_witness :
    ∃ u : ConversationTurn, u.content = "hi" ∧
      ((sendMessage none 3 "hi" (initialState 0)).1).turns =
        (initialState 0).turns ++
          [u, generateAssistantResponse none 3
            (getNextStep none (initialState 0).currentStep)
            (some u.content)] :=
  response_keyed_to_destination none 3 "hi" (initialState 0) (by decide)

/-- Claim C6: the walkthrough driver issues no Backend API operation:
both entry points produce an empty list of backend calls for every
profile, input and previous state. -/
theorem driver_never_calls_backend (profile : Option Profile) (now : Nat)
    (action : UserInputAction) (message : String)
    (prev : ConversationState) :
    (handleUserInput profile now action prev).2 = [] ∧
      (sendMessage profile now message prev).2 = [] := by
  constructor
  · rfl
  · by_cases h : jsTrim message = "" <;> simp [sendMessage, h, handleUserInput]

/-- Claim C9: every `handleUserInput` invocation appends exactly one user
turn followed by one assistant turn, keeps the earlier turns unchanged
and in order, and leaves `isLoading` unchanged. -/
theorem handleUserInput_appends_two_turns (profile : Option Profile)
    (now : Nat) (action : UserInputAction) (prev : ConversationState) :
    ∃ u a : ConversationTurn, u.role = .user ∧ a.role = .assistant ∧
      ((handleUserInput profile now action prev).1).turns =
        prev.turns ++ [u, a] ∧
      ((handleUserInput profile now action prev).1).isLoading =
        prev.isLoading := by
  refine ⟨{ id := "user-" ++ toString now, role := .user,
            content := if action.type = "message" then action.payload
              else "[" ++ action.type ++ "]",
            blocks := none, timestamp := now },
          generateAssistantResponse profile now
            (getNextStep profile prev.currentStep)
            (some (if action.type = "message" then action.payload
              else "[" ++ action.type ++ "]")),
          rfl, generateAssistantResponse_role profile now
            (getNextStep profile prev.currentStep) _, rfl, rfl⟩

/-- Claim C10: for every message non-blank after trimming, the user turn
`sendMessage` appends carries the original untrimmed message as its
content. -/
theorem sendMessage_stores_untrimmed (profile : Option Profile)
    (now : Nat) (message : String) (prev : ConversationState)
    (h : jsTrim message ≠ "") :
    ∃ a : ConversationTurn,
      ((sendMessage profile now message prev).1).turns =
        prev.turns ++
          [{ id := "user-" ++ toString now, role := .user,
             content := message, blocks := none, timestamp := now }, a] := by
  refine ⟨generateAssistantResponse profile now
    (getNextStep profile prev.currentStep) (some message), ?_⟩
  simp [sendMessage, h, handleUserInput]

theorem sendMessage_stores_untrimmed_witness :
    ∃ a : ConversationTurn,
      ((sendMessage none 2 "  hi  " (initialState 0)).1).turns =
        (initialState 0).turns ++
          [{ id := "user-" ++ toString 2, role := .user,
             content := "  hi  ", blocks := none, timestamp := 2 }, a] :=
  sendMessage_stores_untrimmed none 2 "  hi  " (initialState 0) (by decide)

/-- Claim C7: with the agent list available but no matching agent (resp.
an agent id available but no persisted binding), any positive number of
repeated resolver invocations while the creation request stays pending
issues exactly one `createAgent` (resp. `createThread`) request in
total. -/
theorem single_creation_under_repetition (agents : List Agent)
    (spec : AgentSpec) (aid : String) (store : List (String × String))
    (n : Nat)
    (hA : agents.find?
      (fun a => a.name == spec.name && a.type == spec.type) = none)
    (hT : lookupBinding store aid = none) (hn : 1 ≤ n) :
    (iterateResolver (resolveAgentInvoke (some agents) spec) n .idle).2 = 1 ∧
    (iterateResolver (resolveThreadInvoke (some aid) store) n .idle).2 = 1 := by
  obtain ⟨m, rfl⟩ : ∃ m, n = m + 1 := ⟨n - 1, by omega⟩
  constructor
  · have h1 : resolveAgentInvoke (some agents) spec .idle = (.creating, 1) := by
      simp [resolveAgentInvoke, hA]
    have h2 : resolveAgentInvoke (some agents) spec .creating =
        (.creating, 0) := by
      simp [resolveAgentInvoke, hA]
    simp [iterateResolver, h1, iterateResolver_fixed _ _ h2]
  · have h1 : resolveThreadInvoke (some aid) store .idle = (.creating, 1) := by
      simp [resolveThreadInvoke, hT]
    have h2 : resolveThreadInvoke (some aid) store .creating =
        (.creating, 0) := by
      simp [resolveThreadInvoke, hT]
    simp [iterateResolver, h1, iterateResolver_fixed _ _ h2]

theorem single_creation_under_repetition_witness :
    (iterateResolver (resolveAgentInvoke (some [])
      { name := "n", type := "t" }) 3 .idle).2 = 1 ∧
    (iterateResolver (resolveThreadInvoke (some "a1") []) 3 .idle).2 = 1 :=
  single_creation_under_repetition [] { name := "n", type := "t" } "a1" []
    3 rfl rfl (by decide)

/-- Claim C8: once a binding is persisted for an agent, every subsequent
thread resolution — from any in-memory guard state, in particular the
empty guard of a fresh restart — returns the persisted thread id and
issues zero `createThread` requests. -/
theorem binding_reuse (store : List (String × String)) (aid tid : String)
    (g : CreateGuard) (n : Nat)
    (h : lookupBinding store aid = some tid) (hn : 1 ≤ n) :
    (iterateResolver (resolveThreadInvoke (some aid) store) n g).1 =
      .created tid ∧
    (iterateResolver (resolveThreadInvoke (some aid) store) n g).2 = 0 := by
  have hstep : ∀ g', resolveThreadInvoke (some aid) store g' =
      (.created tid, 0) := by
    intro g'
    simp [resolveThreadInvoke, h]
  obtain ⟨m, rfl⟩ : ∃ m, n = m + 1 := ⟨n - 1, by omega⟩
  have hfix := iterateResolver_fixed (resolveThreadInvoke (some aid) store)
    (.created tid) (hstep _) m
  simp [iterateResolver, hstep, hfix]

theorem binding_reuse_witness :
    (iterateResolver (resolveThreadInvoke (some "a1")
      [("session-thread-a1", "t1")]) 2 .idle).1 = .created "t1" ∧
    (iterateResolver (resolveThreadInvoke (some "a1")
      [("session-thread-a1", "t1")]) 2 .idle).2 = 0 :=
  binding_reuse [("session-thread-a1", "t1")] "a1" "t1" .idle 2
    (by decide) (by decide)

end Jura
